import Mathlib

/-!
Shallow embedding of the JNI session bridge (`jni/src/main/native/session.cc`)
of the tensorflow_scala repository.

The file models the four claimed entry points —
`Java_org_platanios_tensorflow_jni_Session_00024_allocate`,
`..._delete`, `..._run`, `..._deviceList` — together with the helper
`tensorflow::ListDevicesWithSessionConfig`, as pure Lean functions over an
abstract engine.  Machine addresses (jlong handles) are modelled as `Nat`,
byte arrays as `List Nat`, a `TF_Status` as `Option String` (`none` = ok,
`some msg` = a non-ok status carrying the engine's message), and the native
engine (TF_SessionRun, TF_SetConfig, TF_NewSession, DeviceFactory::AddDevices,
SerializeToString) as caller-supplied response functions.  Each outcome
structure records, next to the value returned across the JNI boundary, which
engine primitives were invoked and which ephemeral resources were released,
so that the error-handling and resource claims are statable.

Out-of-bounds reads of the parallel run arrays (undefined behaviour in the
C++ source) are modelled by returning `none` at the outermost level, while a
defined execution returns `some outcome`.
-/

set_option autoImplicit false

/-- Structured errors surfaced across the JNI boundary (spec §7 taxonomy).
The C++ side raises them through thrown Java exceptions; here they are data. -/
inductive BridgeError where
  | invalidHandle : BridgeError
  | configParseError (msg : String) : BridgeError
  | runFailed (msg : String) : BridgeError
  | engineError (msg : String) : BridgeError
  deriving DecidableEq, Repr

/-- Modelled from the spec: the handle-resolution table behind the
`REQUIRE_HANDLE` / `REQUIRE_HANDLES` / `REQUIRE_OUTPUTS` macros of
`utilities.h`, which is not part of the sources under verification.  Per
spec §4.1 a resolver maps a caller-supplied integer handle of each expected
native-object kind to "resolves to a live native reference" (`true`) or
"zero, unknown, or of the wrong kind" (`false`). -/
structure Resolver where
  graphOk : Nat → Bool
  sessionOk : Nat → Bool
  tensorOk : Nat → Bool
  opOk : Nat → Bool

/-- Modelled from the spec: the array form of handle resolution used by the
`REQUIRE_HANDLES` macro — every element of the array must resolve
(spec §4.1: the entire array is validated before any engine call). -/
def require_handles (ok : Nat → Bool) (hs : List Nat) : Bool :=
  hs.all ok

/-- Modelled from the spec: the `REQUIRE_OUTPUTS` macro resolves the first
`n` operation handles of the parallel (operation handle, output index)
arrays; only the operation handles need to resolve, the indices are copied
verbatim into the endpoint descriptors. -/
def require_outputs (ok : Nat → Bool) (opHandles : List Nat) (n : Nat) : Bool :=
  (opHandles.take n).all ok

/-- The request assembled by `run` and handed to `TF_SessionRun`
(session.cc lines 170–173): option buffer, resolved endpoint arrays, the
three element counts passed as `int` arguments, and whether a metadata
output buffer was provided. -/
structure RunRequest where
  runOptions : Option (List Nat)
  inputs : List (Nat × Int)
  inputValues : List Nat
  numInputs : Nat
  outputs : List (Nat × Int)
  numOutputs : Nat
  targets : List Nat
  numTargets : Nat
  metadataRequested : Bool
  deriving DecidableEq, Repr

/-- A successful engine run: the tensor handle written into slot `i` of the
output-values array, and the bytes written into the metadata buffer. -/
structure EngineRunOk where
  outVal : Nat → Nat
  metadata : List Nat

/-- The engine's response to a `TF_SessionRun` call: ok with produced
outputs, or a non-ok status with a message. -/
inductive EngineRunResult where
  | ok (res : EngineRunOk) : EngineRunResult
  | err (msg : String) : EngineRunResult

/-- Observable outcome of one `run` call: the byte array returned to Java
(`none` = the `nullptr` failure sentinel / no metadata), the final contents
of the caller-supplied `output_tensor_handles` storage, the pending error if
any, and the request passed to `TF_SessionRun` (`none` when the engine was
never invoked). -/
structure RunOutcome where
  returned : Option (List Nat)
  outputStorage : List Nat
  error : Option BridgeError
  issued : Option RunRequest
  deriving DecidableEq, Repr

/-- Outcome of a failed handle resolution inside `run`: the sentinel
`nullptr` is returned, the caller's output storage is untouched, an
`InvalidHandle` error is pending, and no engine call was issued. -/
def invalidHandleFailure (storage : List Nat) : RunOutcome :=
  { returned := none
    outputStorage := storage
    error := some BridgeError.invalidHandle
    issued := none }

/-- The `RunRequest` built by session.cc lines 147–167: endpoint arrays are
the first `num_inputs` / `num_outputs` elements of the parallel arrays, the
counts are the lengths of the tensor-handle / output-storage / target
arrays, and a non-null run-options byte array wraps into an options buffer
only when its length is positive (lines 159–167). -/
def buildRunRequest (jrunOptions : Option (List Nat))
    (inputTensorHandles inputOpHandles : List Nat) (inputOpIndices : List Int)
    (outputOpHandles : List Nat) (outputOpIndices : List Int)
    (targetOpHandles : List Nat) (wantRunMetadata : Bool)
    (numOutputs : Nat) : RunRequest :=
  { runOptions :=
      match jrunOptions with
      | some bs => if 0 < bs.length then some bs else none
      | none => none
    inputs := (inputOpHandles.take inputTensorHandles.length).zip
      (inputOpIndices.take inputTensorHandles.length)
    inputValues := inputTensorHandles
    numInputs := inputTensorHandles.length
    outputs := (outputOpHandles.take numOutputs).zip (outputOpIndices.take numOutputs)
    numOutputs := numOutputs
    targets := targetOpHandles
    numTargets := targetOpHandles.length
    metadataRequested := wantRunMetadata }

/-- The tail of `run` after all resolutions succeeded (session.cc lines
169–192): issue `TF_SessionRun`; on a non-ok status `CHECK_STATUS` returns
the `nullptr` sentinel with a `RunFailed` error before anything is written
into the output storage; on success every slot `i < num_outputs` of the
caller's storage receives the engine-produced tensor handle for slot `i`,
and when a metadata buffer was provided its bytes are copied into the
returned byte array. -/
def runIssue (engine : RunRequest → EngineRunResult) (req : RunRequest)
    (storage : List Nat) : RunOutcome :=
  match engine req with
  | EngineRunResult.err msg =>
      { returned := none
        outputStorage := storage
        error := some (BridgeError.runFailed msg)
        issued := some req }
  | EngineRunResult.ok res =>
      { returned := if req.metadataRequested then some res.metadata else none
        outputStorage := (List.range storage.length).map res.outVal
        error := none
        issued := some req }

/-- Embedding of `Java_org_platanios_tensorflow_jni_Session_00024_run`
(session.cc lines 137–193).  Resolution order follows the source: session
handle, input tensor handles, input operation references, output operation
references, target operation handles; then the run-options buffer is built
and exactly one `TF_SessionRun` is issued.  Reading `num_inputs`
(resp. `num_outputs`) elements from a shorter parallel array is undefined
behaviour in the source and yields `none` here. -/
def Java_org_platanios_tensorflow_jni_Session_00024_run
    (r : Resolver) (engine : RunRequest → EngineRunResult) (handle : Nat)
    (jrunOptions : Option (List Nat))
    (inputTensorHandles inputOpHandles : List Nat) (inputOpIndices : List Int)
    (outputOpHandles : List Nat) (outputOpIndices : List Int)
    (targetOpHandles : List Nat) (wantRunMetadata : Bool)
    (outputTensorHandles : List Nat) : Option RunOutcome :=
  if r.sessionOk handle then
    if require_handles r.tensorOk inputTensorHandles then
      if inputTensorHandles.length ≤ inputOpHandles.length ∧
          inputTensorHandles.length ≤ inputOpIndices.length then
        if require_outputs r.opOk inputOpHandles inputTensorHandles.length then
          if outputTensorHandles.length ≤ outputOpHandles.length ∧
              outputTensorHandles.length ≤ outputOpIndices.length then
            if require_outputs r.opOk outputOpHandles outputTensorHandles.length then
              if require_handles r.opOk targetOpHandles then
                some (runIssue engine
                  (buildRunRequest jrunOptions inputTensorHandles inputOpHandles
                    inputOpIndices outputOpHandles outputOpIndices targetOpHandles
                    wantRunMetadata outputTensorHandles.length)
                  outputTensorHandles)
              else some (invalidHandleFailure outputTensorHandles)
            else some (invalidHandleFailure outputTensorHandles)
          else none
        else some (invalidHandleFailure outputTensorHandles)
      else none
    else some (invalidHandleFailure outputTensorHandles)
  else some (invalidHandleFailure outputTensorHandles)

/-- Observable outcome of one `delete` call: which of the two engine
primitives were invoked and the pending error, if any. -/
structure DeleteOutcome where
  closeInvoked : Bool
  deleteInvoked : Bool
  error : Option BridgeError
  deriving DecidableEq, Repr

/-- Embedding of `Java_org_platanios_tensorflow_jni_Session_00024_delete`
(session.cc lines 126–135): resolve the session handle, call
`TF_CloseSession`, then `CHECK_STATUS` — which, on a non-ok close status,
returns from the function before `TF_DeleteSession` is reached — then call
`TF_DeleteSession` and check its status.  `closeStatus` / `deleteStatus`
are the statuses the engine reports for the two calls. -/
def Java_org_platanios_tensorflow_jni_Session_00024_delete
    (r : Resolver) (handle : Nat)
    (closeStatus deleteStatus : Option String) : DeleteOutcome :=
  if r.sessionOk handle then
    match closeStatus with
    | some msg =>
        { closeInvoked := true
          deleteInvoked := false
          error := some (BridgeError.engineError msg) }
    | none =>
        match deleteStatus with
        | some msg =>
            { closeInvoked := true
              deleteInvoked := true
              error := some (BridgeError.engineError msg) }
        | none =>
            { closeInvoked := true
              deleteInvoked := true
              error := none }
  else
    { closeInvoked := false
      deleteInvoked := false
      error := some BridgeError.invalidHandle }

/-- Engine responses consumed by `allocate`: the status `TF_SetConfig`
reports for given configuration bytes, and the result of `TF_NewSession`
(a new session handle, or a non-ok status message). -/
structure SessionEngine where
  setConfig : List Nat → Option String
  newSession : Except String Nat

/-- Observable outcome of one `allocate` call: the returned handle (`0` is
the failure sentinel), the pending error, and whether the ephemeral
`TF_SessionOptions` object was created resp. released
(`TF_DeleteSessionOptions`). -/
structure AllocateOutcome where
  result : Nat
  error : Option BridgeError
  optionsCreated : Bool
  optionsDeleted : Bool
  deriving DecidableEq, Repr

/-- Embedding of `Java_org_platanios_tensorflow_jni_Session_00024_allocate`
(session.cc lines 86–124): resolve the graph handle, create a
`TF_SessionOptions` object, apply the target, apply the configuration bytes
(`CHECK_STATUS` returns the sentinel `0` if `TF_SetConfig` reports a non-ok
status), construct the session (`CHECK_STATUS` again on failure), and only
then — on the success path, line 113 — release the options object. -/
def Java_org_platanios_tensorflow_jni_Session_00024_allocate
    (r : Resolver) (graphHandle : Nat) (target : Option String)
    (configProto : Option (List Nat)) (e : SessionEngine) : AllocateOutcome :=
  if r.graphOk graphHandle then
    match configProto with
    | some bytes =>
        match e.setConfig bytes with
        | some msg =>
            { result := 0
              error := some (BridgeError.configParseError msg)
              optionsCreated := true
              optionsDeleted := false }
        | none =>
            match e.newSession with
            | Except.error msg =>
                { result := 0
                  error := some (BridgeError.engineError msg)
                  optionsCreated := true
                  optionsDeleted := false }
            | Except.ok h =>
                { result := h
                  error := none
                  optionsCreated := true
                  optionsDeleted := true }
    | none =>
        match e.newSession with
        | Except.error msg =>
            { result := 0
              error := some (BridgeError.engineError msg)
              optionsCreated := true
              optionsDeleted := false }
        | Except.ok h =>
            { result := h
              error := none
              optionsCreated := true
              optionsDeleted := true }
  else
    { result := 0
      error := some BridgeError.invalidHandle
      optionsCreated := false
      optionsDeleted := false }

/-- Engine responses consumed by device enumeration: whether configuration
bytes parse (`ConfigProto::ParseFromArray`), the result of
`DeviceFactory::AddDevices` on a configuration (status and the device ids it
produced — possibly a partial set next to a non-ok status), and each
device's `SerializeToString` result (`none` = serialization failure). -/
structure DeviceEngine where
  parseOk : List Nat → Bool
  addDevices : List Nat → Option String × List Nat
  serializeAttr : Nat → Option (List Nat)

/-- The serialization loop of `ListDevicesWithSessionConfig` (session.cc
lines 64–75): serialize the devices in order; the first failure aborts the
loop (`none`). -/
def serializeDevices (e : DeviceEngine) : List Nat → Option (List (List Nat))
  | [] => some []
  | d :: ds =>
      match e.serializeAttr d with
      | none => none
      | some bs => (serializeDevices e ds).map (fun rest => bs :: rest)

/-- Embedding of `tensorflow::ListDevicesWithSessionConfig` (session.cc
lines 49–78).  `AddDevices` runs first; a non-ok status is written into the
out-status but the function then continues and serializes whatever devices
were produced.  Only a serialization failure clears the output list (and
overwrites the status with the internal error).  The result is the returned
vector of serialized descriptors paired with the final out-status. -/
def tensorflow.ListDevicesWithSessionConfig (e : DeviceEngine)
    (config : List Nat) : List (List Nat) × Option String :=
  let st := (e.addDevices config).1
  let devices := (e.addDevices config).2
  match serializeDevices e devices with
  | none => ([], some "Could not serialize device string")
  | some out => (out, st)

/-- Embedding of `tensorflow::ListDevices` (session.cc lines 80–83): device
enumeration under a default-constructed configuration, here the empty byte
sequence. -/
def tensorflow.ListDevices (e : DeviceEngine) : List (List Nat) × Option String :=
  tensorflow.ListDevicesWithSessionConfig e []

/-- Observable outcome of one `deviceList` call: the array of serialized
descriptors returned to Java (`none` = the `nullptr` failure sentinel), the
pending error, and whether `DeviceFactory::AddDevices` — the
device-instantiation primitive — was invoked. -/
structure DeviceListOutcome where
  result : Option (List (List Nat))
  error : Option BridgeError
  addDevicesInvoked : Bool
  deriving DecidableEq, Repr

/-- Embedding of `Java_org_platanios_tensorflow_jni_Session_00024_deviceList`
(session.cc lines 203–234): with no configuration bytes, enumerate under the
default configuration; with configuration bytes, parse them first —
`CHECK_STATUS` returns the `nullptr` sentinel with the parse error before
any enumeration — then enumerate under the parsed configuration.  A non-ok
enumeration status again yields the sentinel via `CHECK_STATUS`. -/
def Java_org_platanios_tensorflow_jni_Session_00024_deviceList
    (e : DeviceEngine) (configProto : Option (List Nat)) : DeviceListOutcome :=
  match configProto with
  | none =>
      match tensorflow.ListDevices e with
      | (_, some msg) =>
          { result := none
            error := some (BridgeError.engineError msg)
            addDevicesInvoked := true }
      | (devs, none) =>
          { result := some devs
            error := none
            addDevicesInvoked := true }
  | some bytes =>
      if e.parseOk bytes then
        match tensorflow.ListDevicesWithSessionConfig e bytes with
        | (_, some msg) =>
            { result := none
              error := some (BridgeError.engineError msg)
              addDevicesInvoked := true }
        | (devs, none) =>
            { result := some devs
              error := none
              addDevicesInvoked := true }
      else
        { result := none
          error := some (BridgeError.configParseError
            "Could not parse the provided session config proto.")
          addDevicesInvoked := false }

/-- A resolver in which every handle of every kind resolves. -/
def allOkResolver : Resolver :=
  { graphOk := fun _ => true
    sessionOk := fun _ => true
    tensorOk := fun _ => true
    opOk := fun _ => true }

/-- A resolver in which no tensor handle resolves (stale input tensors),
while all other kinds resolve. -/
def badTensorResolver : Resolver :=
  { graphOk := fun _ => true
    sessionOk := fun _ => true
    tensorOk := fun _ => false
    opOk := fun _ => true }

/-- An engine whose run primitive always reports a non-ok status. -/
def errEngine : RunRequest → EngineRunResult :=
  fun _ => EngineRunResult.err "engine rejected the run"

/-- A fixed successful engine response: output slot `i` receives tensor
handle `i + 10`, and the metadata buffer receives the bytes `[3, 1, 4]`. -/
def mRes : EngineRunOk :=
  { outVal := fun i => i + 10
    metadata := [3, 1, 4] }

/-- An engine whose run primitive always succeeds with `mRes`. -/
def metaEngine : RunRequest → EngineRunResult :=
  fun _ => EngineRunResult.ok mRes

/-- A session engine whose `TF_SetConfig` always reports a parse failure. -/
def leakSessionEngine : SessionEngine :=
  { setConfig := fun _ => some "bad config"
    newSession := Except.ok 42 }

/-- A session engine for which configuration and construction succeed. -/
def okSessionEngine : SessionEngine :=
  { setConfig := fun _ => none
    newSession := Except.ok 42 }

/-- A device engine whose `AddDevices` reports a non-ok status while still
producing one device (id 5), whose attributes serialize to `[9, 9]`. -/
def partialDeviceEngine : DeviceEngine :=
  { parseOk := fun _ => true
    addDevices := fun _ => (some "device instantiation failed", [5])
    serializeAttr := fun _ => some [9, 9] }

/-- A device engine for which no configuration bytes parse. -/
def badParseDeviceEngine : DeviceEngine :=
  { parseOk := fun _ => false
    addDevices := fun _ => (none, [])
    serializeAttr := fun _ => some [] }

theorem runIssue_issued (engine : RunRequest → EngineRunResult)
    (req : RunRequest) (storage : List Nat) :
    (runIssue engine req storage).issued = some req := by
  unfold runIssue
  cases engine req <;> rfl

theorem runIssue_of_err (engine : RunRequest → EngineRunResult)
    (req : RunRequest) (storage : List Nat) (msg : String)
    (h : engine req = EngineRunResult.err msg) :
    runIssue engine req storage =
      { returned := none
        outputStorage := storage
        error := some (BridgeError.runFailed msg)
        issued := some req } := by
  unfold runIssue
  rw [h]

theorem runIssue_of_ok (engine : RunRequest → EngineRunResult)
    (req : RunRequest) (storage : List Nat) (res : EngineRunOk)
    (h : engine req = EngineRunResult.ok res) :
    runIssue engine req storage =
      { returned := if req.metadataRequested then some res.metadata else none
        outputStorage := (List.range storage.length).map res.outVal
        error := none
        issued := some req } := by
  unfold runIssue
  rw [h]

theorem run_issued_inv
    (r : Resolver) (engine : RunRequest → EngineRunResult) (handle : Nat)
    (jrunOptions : Option (List Nat)) (itH ioH : List Nat) (ioI : List Int)
    (ooH : List Nat) (ooI : List Int) (toH : List Nat) (want : Bool)
    (otH : List Nat) (o : RunOutcome)
    (ho : Java_org_platanios_tensorflow_jni_Session_00024_run r engine handle
      jrunOptions itH ioH ioI ooH ooI toH want otH = some o)
    (hissued : o.issued.isSome = true) :
    o = runIssue engine
      (buildRunRequest jrunOptions itH ioH ioI ooH ooI toH want otH.length)
      otH := by
  unfold Java_org_platanios_tensorflow_jni_Session_00024_run at ho
  split_ifs at ho <;>
    first
      | (injection ho with h
         exact h.symm)
      | (injection ho with h
         subst h
         simp [invalidHandleFailure] at hissued)

/-- C3: evaluation of `delete` at a failing close.  With a valid session
handle and `TF_CloseSession` reporting a non-ok status, the `CHECK_STATUS`
inserted at session.cc line 131 returns from the function before
`TF_DeleteSession` (line 133) is reached, contradicting both the claim and
the source's own comment at line 132 ("Result of close is ignored, delete
anyway"): the native context deletion is not attempted. -/
theorem delete_close_failure_skips_engine_delete :
    Java_org_platanios_tensorflow_jni_Session_00024_delete allOkResolver 1
      (some "close failed") none =
      { closeInvoked := true
        deleteInvoked := false
        error := some (BridgeError.engineError "close failed") } := by
  rfl

/-- C4 counterexample: a `createContext` call that allocates the options
object and then fails to apply the configuration bytes returns through
`CHECK_STATUS` (session.cc line 105) without ever reaching
`TF_DeleteSessionOptions` (line 113): the options object is not released on
this exit path, refuting the claim as stated. -/
theorem allocate_config_failure_leaks_options :
    Java_org_platanios_tensorflow_jni_Session_00024_allocate allOkResolver 1
      none (some [0]) leakSessionEngine =
      { result := 0
        error := some (BridgeError.configParseError "bad config")
        optionsCreated := true
        optionsDeleted := false } := by
  rfl

/-- C4 (amended): for every `createContext` call that allocates the
session-options object, the object is released exactly on the success path:
`TF_DeleteSessionOptions` is invoked if and only if the call reports no
error; on the `ConfigParseError` path and on the context-construction
failure path the call returns without releasing it. -/
theorem allocate_options_released_iff_success
    (r : Resolver) (g : Nat) (target : Option String)
    (cfg : Option (List Nat)) (e : SessionEngine)
    (h : (Java_org_platanios_tensorflow_jni_Session_00024_allocate r g target
      cfg e).optionsCreated = true) :
    (Java_org_platanios_tensorflow_jni_Session_00024_allocate r g target cfg
        e).optionsDeleted = true ↔
      (Java_org_platanios_tensorflow_jni_Session_00024_allocate r g target cfg
        e).error = none := by
  unfold Java_org_platanios_tensorflow_jni_Session_00024_allocate at h ⊢
  by_cases hg : r.graphOk g = true
  · rw [if_pos hg]
    cases cfg with
    | none => cases hn : e.newSession <;> simp [hn]
    | some bytes =>
        cases hc : e.setConfig bytes with
        | none => cases hn : e.newSession <;> simp [hc, hn]
        | some msg => simp [hc]
  · rw [if_neg hg] at h
    simp at h

/-- C4 (amended) witness: a successful call with no configuration bytes
both creates and releases the options object. -/
theorem allocate_options_released_iff_success_w :
    (Java_org_platanios_tensorflow_jni_Session_00024_allocate allOkResolver 1
        none none okSessionEngine).optionsDeleted = true ↔
      (Java_org_platanios_tensorflow_jni_Session_00024_allocate allOkResolver 1
        none none okSessionEngine).error = none :=
  allocate_options_released_iff_success allOkResolver 1 none none
    okSessionEngine (by rfl)

/-- C6: for every `listDevices` call whose configuration bytes fail to
parse, the call fails with `ConfigParseError` through `CHECK_STATUS`
(session.cc lines 214–218) before `ListDevicesWithSessionConfig` is
reached: the device-instantiation primitive `DeviceFactory::AddDevices` is
never invoked and the `nullptr` sentinel is returned in place of a
descriptor list. -/
theorem deviceList_parse_failure_no_devices
    (e : DeviceEngine) (bytes : List Nat) (h : e.parseOk bytes = false) :
    Java_org_platanios_tensorflow_jni_Session_00024_deviceList e (some bytes) =
      { result := none
        error := some (BridgeError.configParseError
          "Could not parse the provided session config proto.")
        addDevicesInvoked := false } := by
  unfold Java_org_platanios_tensorflow_jni_Session_00024_deviceList
  simp [h]

/-- C6 witness: malformed configuration bytes against a concrete engine. -/
theorem deviceList_parse_failure_no_devices_w :
    Java_org_platanios_tensorflow_jni_Session_00024_deviceList
      badParseDeviceEngine (some [7]) =
      { result := none
        error := some (BridgeError.configParseError
          "Could not parse the provided session config proto.")
        addDevicesInvoked := false } :=
  deviceList_parse_failure_no_devices badParseDeviceEngine [7] (by rfl)

/-- C7 counterexample: when `DeviceFactory::AddDevices` reports a non-ok
status while producing one device whose attributes serialize successfully,
`ListDevicesWithSessionConfig` (session.cc lines 49–78) reports the failure
but does NOT clear the result list: it serializes the produced device and
returns a non-empty partial descriptor list, refuting the claim as
stated. -/
theorem listDevices_partial_failure_returns_partial_list :
    (tensorflow.ListDevicesWithSessionConfig partialDeviceEngine []).2 =
        some "device instantiation failed" ∧
      (tensorflow.ListDevicesWithSessionConfig partialDeviceEngine []).1 ≠ [] := by
  constructor
  · rfl
  · decide

/-- C7 (amended): when device instantiation partially fails (the add-devices
primitive returns a non-ok status while producing some devices, all of which
serialize), the failure is reported and `ListDevicesWithSessionConfig`
returns the serialized partial device list — the list is cleared only on a
serialization failure; the `deviceList` entry point then fails its status
check and returns the `nullptr` sentinel, so the partial list is not handed
to the JNI caller. -/
theorem listDevices_partial_failure_reported_sentinel
    (e : DeviceEngine) (bytes : List Nat) (msg : String) (ds : List Nat)
    (out : List (List Nat))
    (hparse : e.parseOk bytes = true)
    (hadd : e.addDevices bytes = (some msg, ds))
    (hser : serializeDevices e ds = some out) :
    tensorflow.ListDevicesWithSessionConfig e bytes = (out, some msg) ∧
      Java_org_platanios_tensorflow_jni_Session_00024_deviceList e
        (some bytes) =
        { result := none
          error := some (BridgeError.engineError msg)
          addDevicesInvoked := true } := by
  have h1 : tensorflow.ListDevicesWithSessionConfig e bytes = (out, some msg) := by
    unfold tensorflow.ListDevicesWithSessionConfig
    rw [hadd]
    simp [hser]
  refine ⟨h1, ?_⟩
  unfold Java_org_platanios_tensorflow_jni_Session_00024_deviceList
  simp [hparse, h1]

/-- C7 (amended) witness: one produced device with serializable attributes
next to a non-ok add-devices status. -/
theorem listDevices_partial_failure_reported_sentinel_w :
    tensorflow.ListDevicesWithSessionConfig partialDeviceEngine [] =
        ([[9, 9]], some "device instantiation failed") ∧
      Java_org_platanios_tensorflow_jni_Session_00024_deviceList
        partialDeviceEngine (some []) =
        { result := none
          error := some (BridgeError.engineError "device instantiation failed")
          addDevicesInvoked := true } :=
  listDevices_partial_failure_reported_sentinel partialDeviceEngine []
    "device instantiation failed" [5] [[9, 9]] (by rfl) (by rfl) (by rfl)

/-- C1: for every run call in which at least one element of the input
tensor handles, the first `num_inputs` input operation-reference handles,
the first `num_outputs` output operation-reference handles, or the target
operation handles fails to resolve, `TF_SessionRun` is never invoked (no
request is issued, for every engine), and the call returns the `nullptr`
sentinel with an `InvalidHandle` error, leaving the caller's output storage
untouched.  The parallel arrays are assumed long enough for the reads the
source performs (claim C10). -/
theorem run_invalid_element_blocks_engine
    (r : Resolver) (engine : RunRequest → EngineRunResult) (handle : Nat)
    (jrunOptions : Option (List Nat)) (itH ioH : List Nat) (ioI : List Int)
    (ooH : List Nat) (ooI : List Int) (toH : List Nat) (want : Bool)
    (otH : List Nat)
    (h1 : itH.length ≤ ioH.length) (h2 : itH.length ≤ ioI.length)
    (h3 : otH.length ≤ ooH.length) (h4 : otH.length ≤ ooI.length)
    (hbad : ¬(require_handles r.tensorOk itH = true ∧
              require_outputs r.opOk ioH itH.length = true ∧
              require_outputs r.opOk ooH otH.length = true ∧
              require_handles r.opOk toH = true)) :
    Java_org_platanios_tensorflow_jni_Session_00024_run r engine handle
      jrunOptions itH ioH ioI ooH ooI toH want otH =
      some (invalidHandleFailure otH) := by
  unfold Java_org_platanios_tensorflow_jni_Session_00024_run
  by_cases hs : r.sessionOk handle = true
  · rw [if_pos hs]
    by_cases ht : require_handles r.tensorOk itH = true
    · rw [if_pos ht, if_pos (And.intro h1 h2)]
      by_cases hin : require_outputs r.opOk ioH itH.length = true
      · rw [if_pos hin, if_pos (And.intro h3 h4)]
        by_cases hoo : require_outputs r.opOk ooH otH.length = true
        · rw [if_pos hoo]
          by_cases htg : require_handles r.opOk toH = true
          · exact absurd ⟨ht, hin, hoo, htg⟩ hbad
          · rw [if_neg htg]
        · rw [if_neg hoo]
      · rw [if_neg hin]
    · rw [if_neg ht]
  · rw [if_neg hs]

/-- C1 witness: a single stale input tensor handle blocks the engine call. -/
theorem run_invalid_element_blocks_engine_w :
    Java_org_platanios_tensorflow_jni_Session_00024_run badTensorResolver
      metaEngine 1 none [7] [7] [0] [] [] [] false [] =
      some (invalidHandleFailure []) :=
  run_invalid_element_blocks_engine badTensorResolver metaEngine 1 none
    [7] [7] [0] [] [] [] false [] (by decide) (by decide) (by decide)
    (by decide) (by decide)

/-- C2: for every run call in which `TF_SessionRun` was issued and returned
a non-ok status, the call returns the `nullptr` sentinel, reports
`RunFailed` with the engine's message, and leaves the caller-supplied
output-tensor-handle storage exactly as it was: no partial outputs are
exposed. -/
theorem run_engine_failure_yields_no_partial_outputs
    (r : Resolver) (engine : RunRequest → EngineRunResult) (handle : Nat)
    (jrunOptions : Option (List Nat)) (itH ioH : List Nat) (ioI : List Int)
    (ooH : List Nat) (ooI : List Int) (toH : List Nat) (want : Bool)
    (otH : List Nat) (o : RunOutcome) (req : RunRequest) (msg : String)
    (ho : Java_org_platanios_tensorflow_jni_Session_00024_run r engine handle
      jrunOptions itH ioH ioI ooH ooI toH want otH = some o)
    (hreq : o.issued = some req)
    (herr : engine req = EngineRunResult.err msg) :
    o.returned = none ∧ o.outputStorage = otH ∧
      o.error = some (BridgeError.runFailed msg) := by
  have hinv := run_issued_inv r engine handle jrunOptions itH ioH ioI ooH ooI
    toH want otH o ho (by rw [hreq]; rfl)
  subst hinv
  rw [runIssue_issued] at hreq
  injection hreq with h
  subst h
  rw [runIssue_of_err engine _ otH msg herr]
  exact ⟨rfl, rfl, rfl⟩

/-- C2 witness: a concrete run against an engine that rejects it. -/
theorem run_engine_failure_yields_no_partial_outputs_w :
    ({ returned := none
       outputStorage := ([] : List Nat)
       error := some (BridgeError.runFailed "engine rejected the run")
       issued := some (buildRunRequest none [] [] [] [] [] [] false 0) } :
      RunOutcome).returned = none ∧
      ({ returned := none
         outputStorage := ([] : List Nat)
         error := some (BridgeError.runFailed "engine rejected the run")
         issued := some (buildRunRequest none [] [] [] [] [] [] false 0) } :
        RunOutcome).outputStorage = [] ∧
      ({ returned := none
         outputStorage := ([] : List Nat)
         error := some (BridgeError.runFailed "engine rejected the run")
         issued := some (buildRunRequest none [] [] [] [] [] [] false 0) } :
        RunOutcome).error =
        some (BridgeError.runFailed "engine rejected the run") :=
  run_engine_failure_yields_no_partial_outputs allOkResolver errEngine 1 none
    [] [] [] [] [] [] false [] _ _ "engine rejected the run" rfl rfl rfl

/-- C5: for every defined run call, if the want-metadata flag is false the
returned byte buffer is the null sentinel, and if the flag is true and the
issued engine run succeeded, the returned byte buffer holds exactly the
metadata bytes the engine produced. -/
theorem run_metadata_optionality
    (r : Resolver) (engine : RunRequest → EngineRunResult) (handle : Nat)
    (jrunOptions : Option (List Nat)) (itH ioH : List Nat) (ioI : List Int)
    (ooH : List Nat) (ooI : List Int) (toH : List Nat) (want : Bool)
    (otH : List Nat) (o : RunOutcome) (req : RunRequest) (res : EngineRunOk)
    (ho : Java_org_platanios_tensorflow_jni_Session_00024_run r engine handle
      jrunOptions itH ioH ioI ooH ooI toH want otH = some o) :
    (want = false → o.returned = none) ∧
      (o.issued = some req → engine req = EngineRunResult.ok res →
        want = true → o.returned = some res.metadata) := by
  constructor
  · intro hw
    unfold Java_org_platanios_tensorflow_jni_Session_00024_run at ho
    split_ifs at ho <;>
      first
        | (injection ho with h
           subst h
           rfl)
        | (injection ho with h
           subst h
           unfold runIssue
           cases hE : engine (buildRunRequest jrunOptions itH ioH ioI ooH ooI
             toH want otH.length) <;> simp [buildRunRequest, hw])
  · intro hreq hok hw
    have hinv := run_issued_inv r engine handle jrunOptions itH ioH ioI ooH
      ooI toH want otH o ho (by rw [hreq]; rfl)
    subst hinv
    rw [runIssue_issued] at hreq
    injection hreq with h
    subst h
    rw [runIssue_of_ok engine _ otH res hok]
    simp [buildRunRequest, hw]

/-- C5 witness: a metadata-requesting run whose engine produces the bytes
`[3, 1, 4]` returns exactly those bytes. -/
theorem run_metadata_optionality_w :
    (true = false →
      ({ returned := some [3, 1, 4]
         outputStorage := ([] : List Nat)
         error := none
         issued := some (buildRunRequest none [] [] [] [] [] [] true 0) } :
        RunOutcome).returned = none) ∧
      (({ returned := some [3, 1, 4]
          outputStorage := ([] : List Nat)
          error := none
          issued := some (buildRunRequest none [] [] [] [] [] [] true 0) } :
         RunOutcome).issued =
          some (buildRunRequest none [] [] [] [] [] [] true 0) →
        metaEngine (buildRunRequest none [] [] [] [] [] [] true 0) =
          EngineRunResult.ok mRes →
        true = true →
        ({ returned := some [3, 1, 4]
           outputStorage := ([] : List Nat)
           error := none
           issued := some (buildRunRequest none [] [] [] [] [] [] true 0) } :
          RunOutcome).returned = some mRes.metadata) :=
  run_metadata_optionality allOkResolver metaEngine 1 none [] [] [] [] [] []
    true [] _ (buildRunRequest none [] [] [] [] [] [] true 0) mRes rfl

/-- C8: for every defined run whose issued engine run succeeded, no error is
pending and slot `i` of the caller-owned output-tensor-handle storage holds
the handle of the engine's `i`-th produced output tensor, for every
`i < num_outputs`; with `num_outputs = 0` the run succeeds writing no
output handles. -/
theorem run_success_writes_outputs_in_order
    (r : Resolver) (engine : RunRequest → EngineRunResult) (handle : Nat)
    (jrunOptions : Option (List Nat)) (itH ioH : List Nat) (ioI : List Int)
    (ooH : List Nat) (ooI : List Int) (toH : List Nat) (want : Bool)
    (otH : List Nat) (o : RunOutcome) (req : RunRequest) (res : EngineRunOk)
    (i : Nat)
    (ho : Java_org_platanios_tensorflow_jni_Session_00024_run r engine handle
      jrunOptions itH ioH ioI ooH ooI toH want otH = some o)
    (hreq : o.issued = some req)
    (hok : engine req = EngineRunResult.ok res) :
    o.error = none ∧
      (i < otH.length → o.outputStorage.get? i = some (res.outVal i)) ∧
      (otH.length = 0 → o.outputStorage = []) := by
  have hinv := run_issued_inv r engine handle jrunOptions itH ioH ioI ooH ooI
    toH want otH o ho (by rw [hreq]; rfl)
  subst hinv
  rw [runIssue_issued] at hreq
  injection hreq with h
  subst h
  rw [runIssue_of_ok engine _ otH res hok]
  refine ⟨rfl, ?_, ?_⟩
  · intro hi
    simp [List.getElem?_map, List.getElem?_range, hi]
  · intro h0
    simp [h0]

/-- C8 witness: two outputs are written in order (`10` then `11`), slot 1
holding the engine's second produced tensor handle. -/
theorem run_success_writes_outputs_in_order_w :
    ({ returned := none
       outputStorage := [10, 11]
       error := none
       issued := some (buildRunRequest none [] [] [] [1, 2] [0, 0] [] false 2) } :
      RunOutcome).error = none ∧
      (1 < ([0, 0] : List Nat).length →
        ({ returned := none
           outputStorage := [10, 11]
           error := none
           issued :=
             some (buildRunRequest none [] [] [] [1, 2] [0, 0] [] false 2) } :
          RunOutcome).outputStorage.get? 1 = some (mRes.outVal 1)) ∧
      (([0, 0] : List Nat).length = 0 →
        ({ returned := none
           outputStorage := [10, 11]
           error := none
           issued :=
             some (buildRunRequest none [] [] [] [1, 2] [0, 0] [] false 2) } :
          RunOutcome).outputStorage = []) :=
  run_success_writes_outputs_in_order allOkResolver metaEngine 1 none [] []
    [] [1, 2] [0, 0] [] false [0, 0] _ _ mRes 1 rfl rfl rfl

/-- C9: a present run-options byte array of length zero is treated
identically to passing no run-options at all — the two calls are equal for
every resolver, engine, and remaining argument (in both, the request's
options buffer is absent). -/
theorem run_zero_length_options_is_no_options
    (r : Resolver) (engine : RunRequest → EngineRunResult) (handle : Nat)
    (itH ioH : List Nat) (ioI : List Int) (ooH : List Nat) (ooI : List Int)
    (toH : List Nat) (want : Bool) (otH : List Nat) :
    Java_org_platanios_tensorflow_jni_Session_00024_run r engine handle
      (some []) itH ioH ioI ooH ooI toH want otH =
      Java_org_platanios_tensorflow_jni_Session_00024_run r engine handle
        none itH ioH ioI ooH ooI toH want otH := rfl

/-- C10: the counts `N`, `M`, `K` handed to `TF_SessionRun` are exactly the
lengths of the input-tensor-handle, output-tensor-handle and
target-op-handle arrays, with the input values being the tensor-handle
array itself; whenever the parallel operation-handle/index arrays are at
least that long the call's behaviour is defined; and at a violating input
(one input tensor but empty parallel arrays) the call is undefined. -/
theorem run_counts_from_array_lengths
    (r : Resolver) (engine : RunRequest → EngineRunResult) (handle : Nat)
    (jrunOptions : Option (List Nat)) (itH ioH : List Nat) (ioI : List Int)
    (ooH : List Nat) (ooI : List Int) (toH : List Nat) (want : Bool)
    (otH : List Nat) (o : RunOutcome) (req : RunRequest)
    (h1 : itH.length ≤ ioH.length) (h2 : itH.length ≤ ioI.length)
    (h3 : otH.length ≤ ooH.length) (h4 : otH.length ≤ ooI.length) :
    (Java_org_platanios_tensorflow_jni_Session_00024_run r engine handle
        jrunOptions itH ioH ioI ooH ooI toH want otH).isSome = true ∧
      (Java_org_platanios_tensorflow_jni_Session_00024_run r engine handle
          jrunOptions itH ioH ioI ooH ooI toH want otH = some o →
        o.issued = some req →
        req.numInputs = itH.length ∧ req.numOutputs = otH.length ∧
          req.numTargets = toH.length ∧ req.inputValues = itH) ∧
      Java_org_platanios_tensorflow_jni_Session_00024_run allOkResolver
        metaEngine 1 none [5] [] [] [] [] [] false [] = none := by
  refine ⟨?_, ?_, rfl⟩
  · unfold Java_org_platanios_tensorflow_jni_Session_00024_run
    by_cases hs : r.sessionOk handle = true
    · rw [if_pos hs]
      by_cases ht : require_handles r.tensorOk itH = true
      · rw [if_pos ht, if_pos (And.intro h1 h2)]
        by_cases hin : require_outputs r.opOk ioH itH.length = true
        · rw [if_pos hin, if_pos (And.intro h3 h4)]
          by_cases hoo : require_outputs r.opOk ooH otH.length = true
          · rw [if_pos hoo]
            by_cases htg : require_handles r.opOk toH = true
            · rw [if_pos htg]
              rfl
            · rw [if_neg htg]
              rfl
          · rw [if_neg hoo]
            rfl
        · rw [if_neg hin]
          rfl
      · rw [if_neg ht]
        rfl
    · rw [if_neg hs]
      rfl
  · intro ho hreq
    have hinv := run_issued_inv r engine handle jrunOptions itH ioH ioI ooH
      ooI toH want otH o ho (by rw [hreq]; rfl)
    subst hinv
    rw [runIssue_issued] at hreq
    injection hreq with h
    subst h
    exact ⟨rfl, rfl, rfl, rfl⟩

/-- C10 witness: the length precondition discharged at a concrete
targets-only run. -/
theorem run_counts_from_array_lengths_w :
    (Java_org_platanios_tensorflow_jni_Session_00024_run allOkResolver
        metaEngine 1 none [] [] [] [] [] [] false []).isSome = true ∧
      (Java_org_platanios_tensorflow_jni_Session_00024_run allOkResolver
          metaEngine 1 none [] [] [] [] [] [] false [] =
          some { returned := none
                 outputStorage := ([] : List Nat)
                 error := none
                 issued :=
                   some (buildRunRequest none [] [] [] [] [] [] false 0) } →
        ({ returned := none
           outputStorage := ([] : List Nat)
           error := none
           issued := some (buildRunRequest none [] [] [] [] [] [] false 0) } :
          RunOutcome).issued =
            some (buildRunRequest none [] [] [] [] [] [] false 0) →
        (buildRunRequest none [] [] [] [] [] [] false 0).numInputs =
            ([] : List Nat).length ∧
          (buildRunRequest none [] [] [] [] [] [] false 0).numOutputs =
            ([] : List Nat).length ∧
          (buildRunRequest none [] [] [] [] [] [] false 0).numTargets =
            ([] : List Nat).length ∧
          (buildRunRequest none [] [] [] [] [] [] false 0).inputValues =
            ([] : List Nat)) ∧
      Java_org_platanios_tensorflow_jni_Session_00024_run allOkResolver
        metaEngine 1 none [5] [] [] [] [] [] false [] = none :=
  run_counts_from_array_lengths allOkResolver metaEngine 1 none [] [] [] []
    [] [] false [] _ _ (by decide) (by decide) (by decide) (by decide)
